import Mathlib

/-!
Shallow embedding of `src/modbus-interface.c` from the knot-virtualthing
repository: the Driver Selector (`parse_url`), the Register Reader
(`modbus_read_data`), and the Connection Manager state machine
(`modbus_start`, `attempt_connect`, `on_disconnected`, `modbus_stop`).

C strings are modelled as lists of byte values (the terminating NUL is the
end of the list).  Machine integers are modelled as `Nat` with explicit
`% 2 ^ w` at the points where the C code stores into a fixed-width field.
Return codes are `Int` (negative errno-style values on failure).
-/

namespace Modbus

/-- `EINVAL` from `errno.h`. -/
def EINVAL : Nat := 22

/-- `#define RECONNECT_TIMEOUT 5` (seconds). -/
def RECONNECT_TIMEOUT : Nat := 5

/-- `#define TCP_PREFIX "tcp://"`, as bytes. -/
def TCP_PREFIX_bytes : List Nat := [116, 99, 112, 58, 47, 47]

/-- `#define TCP_PREFIX_SIZE 6`. -/
def TCP_PREFIX_SIZE : Nat := 6

/-- `#define RTU_PREFIX "serial://"`, as bytes. -/
def RTU_PREFIX_bytes : List Nat := [115, 101, 114, 105, 97, 108, 58, 47, 47]

/-- `#define RTU_PREFIX_SIZE 9`. -/
def RTU_PREFIX_SIZE : Nat := 9

/-- C `strncmp` on NUL-terminated strings modelled as byte lists: compare at
most `n` bytes, stopping at the first difference or at a string end
(reaching the end of a list is reaching the `'\0'` terminator). -/
def strncmp : List Nat → List Nat → Nat → Int
  | s1, s2, n =>
    match n with
    | 0 => 0
    | n + 1 =>
      match s1, s2 with
      | [], [] => 0
      | [], b :: _ => 0 - (b : Int)
      | a :: _, [] => (a : Int)
      | a :: s1, b :: s2 =>
        if a = b then strncmp s1 s2 n else (a : Int) - (b : Int)

/-- `enum driver_type { TCP, RTU }` has `TCP = 0` and `RTU = 1`;
`parse_url` returns one of these or `-EINVAL`. -/
def parse_url (url : List Nat) : Int :=
  if strncmp url TCP_PREFIX_bytes TCP_PREFIX_SIZE = 0 then 0
  else if strncmp url RTU_PREFIX_bytes RTU_PREFIX_SIZE = 0 then 1
  else -(EINVAL : Int)

/-- Which transport read primitive of `struct modbus_driver` is invoked. -/
inductive ReadPrim where
  | rBool
  | rByte
  | rU16
  | rU32
  | rU64
deriving DecidableEq

/-- The behaviour of the external transport driver's read primitives for one
call of `modbus_read_data`: the return code and the data each primitive
would deposit.  `bytes` is the content the byte-read primitive leaves in
`byte_tmp[0..7]` (each entry a `uint8_t`). -/
structure DriverReads where
  rcBool : Int
  valBool : Bool
  rcByte : Int
  bytes : Nat → Nat
  rcU16 : Int
  valU16 : Nat
  rcU32 : Int
  valU32 : Nat
  rcU64 : Int
  valU64 : Nat

/-- One iteration of the packing loop `tmp.val_byte |= byte_tmp[i] << i`
(`tmp.val_byte` is a `uint8_t`, hence the `% 256`). -/
def pack_step (b : Nat → Nat) (acc i : Nat) : Nat :=
  (acc ||| ((b i % 256) <<< i)) % 256

/-- The loop `for (i = 0; i < sizeof(byte_tmp); i++) tmp.val_byte |= byte_tmp[i] << i`
starting from the `memset`-zeroed `tmp`. -/
def pack_byte (b : Nat → Nat) : Nat :=
  List.foldl (pack_step b) 0 (List.range 8)

/-- The `switch (bit_offset)` of `modbus_read_data`: produces the return
code `rc`, the value left in the zero-initialised `union modbus_types tmp`
(as the 64-bit little-endian content of the union), and the list of driver
primitives invoked. -/
def read_switch (d : DriverReads) (bit_offset : Int) : Int × Nat × List ReadPrim :=
  if bit_offset = 1 then
    (d.rcBool, (if d.valBool then 1 else 0), [ReadPrim.rBool])
  else if bit_offset = 8 then
    (d.rcByte, pack_byte d.bytes, [ReadPrim.rByte])
  else if bit_offset = 16 then
    (d.rcU16, d.valU16 % 2 ^ 16, [ReadPrim.rU16])
  else if bit_offset = 32 then
    (d.rcU32, d.valU32 % 2 ^ 32, [ReadPrim.rU32])
  else if bit_offset = 64 then
    (d.rcU64, d.valU64 % 2 ^ 64, [ReadPrim.rU64])
  else
    (-(EINVAL : Int), 0, [])

/-- `modbus_read_data(reg_addr, bit_offset, out)`.  `errno` is the value of
the C `errno` variable when the function runs, `out` the 8 bytes of
`*out` before the call (as a 64-bit number).  Returns the `int` result,
the 8 bytes of `*out` after the call, and the driver primitives invoked.
After the switch the code does `if (rc < 0) rc = -errno; else memcpy(out, &tmp, 8)`. -/
def modbus_read_data (d : DriverReads) (errno : Nat) (reg_addr : Int)
    (bit_offset : Int) (out : Nat) : Int × Nat × List ReadPrim :=
  let r := read_switch d bit_offset
  if r.1 < 0 then (-(errno : Int), out, r.2.2)
  else (r.1, r.2.1, r.2.2)

/-- Byte `i` (little-endian) of the 8-byte buffer encoded as a number. -/
def byteAt (x i : Nat) : Nat := x / 2 ^ (8 * i) % 256

/-- `sizeof` of the union member selected by each recognised width
selector of `modbus_read_data`. -/
def width_bytes (bit_offset : Int) : Nat :=
  if bit_offset = 1 then 1
  else if bit_offset = 8 then 1
  else if bit_offset = 16 then 2
  else if bit_offset = 32 then 4
  else if bit_offset = 64 then 8
  else 0

/-- `enum driver_type { TCP, RTU }` as the value stored in
`connection_interface`. -/
inductive driver_type where
  | TCP
  | RTU
deriving DecidableEq

/-- Callback invocations observable from the module: which callback
function (identified by an abstract pointer value) was called with which
`user_data` argument (`none` models `NULL`). -/
inductive Event where
  | connCb (cb : Nat) (arg : Option Nat)
  | disconnCb (cb : Nat) (arg : Option Nat)
deriving DecidableEq

/-- The module's global variables from `modbus-interface.c`
(`connection_interface`, `connect_to`, `modbus_io`, `modbus_ctx`,
`conn_cb`, `disconn_cb`), together with an explicit heap of live handles.
Pointer fields hold abstract handle identifiers and may dangle: a field
can name a handle that is no longer in the corresponding live list.
`armedTimers` holds the timers currently scheduled to fire;
`intervals` records the most recent interval (in milliseconds) set for
each timer; `events` is the trace of callback invocations; `faulted` is
set when a released or never-allocated handle is released again
(use-after-free / double-free). -/
structure MState where
  connection_interface : Option driver_type
  connect_to : Option Nat
  modbus_io : Option Nat
  modbus_ctx : Option Nat
  conn_cb : Option Nat
  disconn_cb : Option Nat
  liveTimers : List Nat
  armedTimers : List Nat
  intervals : List (Nat × Nat)
  liveIOs : List Nat
  liveCtxs : List Nat
  nextId : Nat
  events : List Event
  faulted : Bool
deriving DecidableEq

/-- C global variables are zero-initialised: every pointer starts `NULL`. -/
def initState : MState :=
  ⟨none, none, none, none, none, none, [], [], [], [], [], 0, [], false⟩

/-- `l_timeout_create_ms(ms, cb, user_data, destroy)`: allocates a fresh
timer, armed with the given interval in milliseconds. -/
def l_timeout_create_ms (s : MState) (ms : Nat) : MState × Nat :=
  let t := s.nextId
  ({ s with liveTimers := t :: s.liveTimers,
            armedTimers := t :: s.armedTimers,
            intervals := (t, ms) :: s.intervals,
            nextId := s.nextId + 1 }, t)

/-- `l_timeout_modify(timeout, seconds)`: re-arms a live timer for the
given number of seconds (ell's API takes seconds here); a `NULL` timer is
ignored, a dangling one is a fault. -/
def l_timeout_modify (s : MState) (t : Option Nat) (seconds : Nat) : MState :=
  match t with
  | none => s
  | some t =>
    if t ∈ s.liveTimers then
      { s with armedTimers := t :: s.armedTimers.filter (fun x => x != t),
               intervals := (t, seconds * 1000) :: s.intervals }
    else { s with faulted := true }

/-- `l_timeout_remove(timeout)`: releases a live timer; a `NULL` timer is
ignored, a dangling one is a fault. -/
def l_timeout_remove (s : MState) (t : Option Nat) : MState :=
  match t with
  | none => s
  | some t =>
    if t ∈ s.liveTimers then
      { s with liveTimers := s.liveTimers.filter (fun x => x != t),
               armedTimers := s.armedTimers.filter (fun x => x != t) }
    else { s with faulted := true }

/-- `l_io_new(fd)`: allocates a fresh I/O watch. -/
def l_io_new (s : MState) : MState × Nat :=
  let i := s.nextId
  ({ s with liveIOs := i :: s.liveIOs, nextId := s.nextId + 1 }, i)

/-- `l_io_destroy(io)`: releases a live I/O watch; `NULL` is ignored, a
dangling handle is a fault. -/
def l_io_destroy (s : MState) (io : Option Nat) : MState :=
  match io with
  | none => s
  | some i =>
    if i ∈ s.liveIOs then
      { s with liveIOs := s.liveIOs.filter (fun x => x != i) }
    else { s with faulted := true }

/-- `connection_interface.create(url)` succeeding: allocates a fresh
driver context. -/
def driver_create (s : MState) : MState × Nat :=
  let c := s.nextId
  ({ s with liveCtxs := c :: s.liveCtxs, nextId := s.nextId + 1 }, c)

/-- `connection_interface.destroy(ctx)`: releases a live driver context;
releasing a dangling one is a fault. -/
def driver_destroy (s : MState) (ctx : Option Nat) : MState :=
  match ctx with
  | none => s
  | some c =>
    if c ∈ s.liveCtxs then
      { s with liveCtxs := s.liveCtxs.filter (fun x => x != c) }
    else { s with faulted := true }

/-- `attempt_connect(to, user_data)`.  `connectOk` is the outcome of the
external `modbus_connect` call.  On failure the timer `to` is re-armed
for `RECONNECT_TIMEOUT` seconds and nothing else happens; on success an
I/O watch is created, stored in `modbus_io`, its disconnect handler is
registered (with `NULL` handler user-data, per the source), and
`conn_cb(user_data)` is invoked if a connected callback is set. -/
def attempt_connect (s : MState) (tout : Option Nat) (user_data : Option Nat)
    (connectOk : Bool) : MState :=
  if ¬ connectOk then
    l_timeout_modify s tout RECONNECT_TIMEOUT
  else
    let p := l_io_new s
    let s2 := { p.1 with modbus_io := some p.2 }
    match s2.conn_cb with
    | none => s2
    | some cb => { s2 with events := s2.events ++ [Event.connCb cb user_data] }

/-- `on_disconnected(io, user_data)`: closes the modbus connection,
invokes `disconn_cb(user_data)` if set, destroys the I/O watch, clears
`modbus_io`, and re-arms `connect_to` for `RECONNECT_TIMEOUT` seconds. -/
def on_disconnected (s : MState) (user_data : Option Nat) : MState :=
  let s1 :=
    match s.disconn_cb with
    | none => s
    | some cb => { s with events := s.events ++ [Event.disconnCb cb user_data] }
  let s2 := l_io_destroy s1 s1.modbus_io
  let s3 := { s2 with modbus_io := none }
  l_timeout_modify s3 s3.connect_to RECONNECT_TIMEOUT

/-- `modbus_start(url, slave_id, connected_cb, disconnected_cb, user_data)`.
`createOk` and `setSlaveOk` are the outcomes of the external
`connection_interface.create` and `modbus_set_slave` calls, `errno` the C
`errno` value those calls leave behind on failure.  Note, faithful to the
source: the timer is created with `l_timeout_create_ms(1, attempt_connect,
NULL, NULL)`, so the caller's `user_data` is dropped, and a failing
`modbus_set_slave` returns with the created context still stored in
`modbus_ctx`. -/
def modbus_start (s : MState) (url : List Nat) (slave_id : Int)
    (connected_cb disconnected_cb : Option Nat) (user_data : Option Nat)
    (createOk setSlaveOk : Bool) (errno : Nat) : MState × Int :=
  if parse_url url = 0 ∨ parse_url url = 1 then
    let ci := if parse_url url = 0 then driver_type.TCP else driver_type.RTU
    let s0 := { s with connection_interface := some ci }
    if ¬ createOk then ({ s0 with modbus_ctx := none }, -(errno : Int))
    else
      let p := driver_create s0
      let s2 := { p.1 with modbus_ctx := some p.2 }
      if ¬ setSlaveOk then (s2, -(errno : Int))
      else
        let s3 := { s2 with conn_cb := connected_cb,
                            disconn_cb := disconnected_cb }
        let q := l_timeout_create_ms s3 1
        ({ q.1 with connect_to := some q.2 }, 0)
  else (s, -(EINVAL : Int))

/-- `modbus_stop()`: removes the timer if the pointer is set, destroys the
I/O watch if the pointer is set, destroys the context if the pointer is
set.  None of the three pointer fields is cleared (faithful to the
source). -/
def modbus_stop (s : MState) : MState :=
  let s1 := l_timeout_remove s s.connect_to
  let s2 := l_io_destroy s1 s.modbus_io
  driver_destroy s2 s.modbus_ctx

/-- The event loop delivering the one-shot timer `t`: the timer is
disarmed by firing, and `attempt_connect` runs with the registered
user-data, which the source registered as `NULL`. -/
def fire_timer (s : MState) (t : Nat) (connectOk : Bool) : MState :=
  attempt_connect { s with armedTimers := s.armedTimers.filter (fun x => x != t) }
    (some t) none connectOk

/-- The event loop delivering the disconnect notification of the live I/O
watch: `on_disconnected` runs with the registered user-data, which the
source registered as `NULL`. -/
def fire_disconnect (s : MState) : MState :=
  on_disconnected s none

/-- States reachable from the zero-initialised module state by: one
`modbus_start` call (per the spec's contract, a second `start` while a
context is live is invalid), timer deliveries, disconnect deliveries and
`modbus_stop` calls, with arbitrary parameters and external outcomes. -/
inductive Reach : MState → Prop where
  | init : Reach initState
  | start (url : List Nat) (slave : Int) (ccb dcb ud : Option Nat)
      (cOk sOk : Bool) (errno : Nat) :
      Reach (modbus_start initState url slave ccb dcb ud cOk sOk errno).1
  | timer (s : MState) (t : Nat) (cOk : Bool) : Reach s →
      s.connect_to = some t → t ∈ s.armedTimers → Reach (fire_timer s t cOk)
  | disc (s : MState) (i : Nat) : Reach s →
      s.modbus_io = some i → i ∈ s.liveIOs → Reach (fire_disconnect s)
  | stop (s : MState) : Reach s → Reach (modbus_stop s)

/-- The I/O watch named by `modbus_io` is live. -/
def watchLive (s : MState) : Prop :=
  ∃ i, s.modbus_io = some i ∧ i ∈ s.liveIOs

/-- The timer named by `connect_to` is armed (scheduled to fire). -/
def timerArmedLive (s : MState) : Prop :=
  ∃ t, s.connect_to = some t ∧ t ∈ s.armedTimers

/-- A concrete `tcp://` URL (`"tcp://h"`). -/
def tcp_url : List Nat := TCP_PREFIX_bytes ++ [104]

/-- The state after a successful `modbus_start(tcp_url, 1, cb7, cb8, &x)`
from the initial state (callback pointers `7` and `8`, a non-`NULL`
`user_data` value `42`). -/
def s_started : MState :=
  (modbus_start initState tcp_url 1 (some 7) (some 8) (some 42) true true 0).1

/-- `s_started` after the connect timer fires and `modbus_connect`
succeeds. -/
def s_conn : MState := fire_timer s_started 1 true

/-- A driver behaviour whose primitives all fail with return code `-1`. -/
def d_err : DriverReads := ⟨-1, false, -1, fun _ => 0, -1, 0, -1, 0, -1, 0⟩

/-- A driver behaviour whose primitives all succeed with return code `0`;
the byte-read primitive deposits the coil readings `[1,0,1,0,0,0,0,0]`. -/
def d_ok : DriverReads :=
  ⟨0, true, 0, fun j => if j = 0 ∨ j = 2 then 1 else 0, 0, 50000, 0, 70000, 0, 3⟩

theorem pack_range_last (b : Nat → Nat) (k : Nat) :
    List.foldl (pack_step b) 0 (List.range (k + 1)) =
      pack_step b (List.foldl (pack_step b) 0 (List.range k)) k := by
  rw [List.range_succ, List.foldl_append]
  rfl

theorem pack_aux (b : Nat → Nat) (hb : ∀ j, b j ≤ 1) :
    ∀ k, k ≤ 8 →
      List.foldl (pack_step b) 0 (List.range k) < 2 ^ k ∧
        ∀ i, (List.foldl (pack_step b) 0 (List.range k)).testBit i =
          (decide (i < k) && decide (b i = 1)) := by
  intro k
  induction k with
  | zero =>
    intro _
    refine ⟨by norm_num, fun i => ?_⟩
    simp [List.range_zero]
  | succ k ih =>
    intro hk
    obtain ⟨ihlt, ihbit⟩ := ih (by omega)
    have hbk := hb k
    have hshift : (b k % 256) <<< k = b k * 2 ^ k := by
      rw [Nat.shiftLeft_eq, Nat.mod_eq_of_lt (by omega)]
    have hsucc : (2 : Nat) ^ (k + 1) = 2 ^ k * 2 := pow_succ 2 k
    have hpos : 0 < (2 : Nat) ^ k := pow_pos (by norm_num) k
    have hbk2 : b k * 2 ^ k < 2 ^ (k + 1) := by
      have h1 : b k * 2 ^ k ≤ 1 * 2 ^ k := Nat.mul_le_mul_right _ hbk
      omega
    have hor : (List.foldl (pack_step b) 0 (List.range k)) ||| b k * 2 ^ k
        < 2 ^ (k + 1) := by
      apply Nat.or_lt_two_pow _ hbk2
      omega
    have h256 : (2 : Nat) ^ (k + 1) ≤ 256 := by
      calc (2 : Nat) ^ (k + 1) ≤ 2 ^ 8 := Nat.pow_le_pow_right (by norm_num) (by omega)
      _ = 256 := by norm_num
    have hstep : List.foldl (pack_step b) 0 (List.range (k + 1)) =
        (List.foldl (pack_step b) 0 (List.range k)) ||| b k * 2 ^ k := by
      rw [pack_range_last]
      show (List.foldl (pack_step b) 0 (List.range k) ||| ((b k % 256) <<< k)) % 256 = _
      rw [hshift]
      exact Nat.mod_eq_of_lt (by omega)
    refine ⟨by rw [hstep]; exact hor, fun i => ?_⟩
    rw [hstep, Nat.testBit_or, ihbit]
    have htb : Nat.testBit (b k * 2 ^ k) i = (decide (b k = 1) && decide (i = k)) := by
      rcases Nat.le_one_iff_eq_zero_or_eq_one.mp hbk with h0 | h1
      · rw [h0]
        simp
      · rw [h1, one_mul, Nat.testBit_two_pow]
        simp [eq_comm]
    rw [htb]
    rcases Nat.lt_trichotomy i k with hlt | heq | hgt
    · have d1 : decide (i < k) = true := by simp only [decide_eq_true_eq]; omega
      have d2 : decide (i < k + 1) = true := by simp only [decide_eq_true_eq]; omega
      have d3 : decide (i = k) = false := by
        simp only [decide_eq_false_iff_not]; omega
      rw [d1, d2, d3]
      simp
    · subst heq
      have d1 : decide (i < i) = false := by
        simp only [decide_eq_false_iff_not]; omega
      have d2 : decide (i < i + 1) = true := by simp only [decide_eq_true_eq]; omega
      have d3 : decide (i = i) = true := by simp
      rw [d1, d2, d3]
      simp
    · have d1 : decide (i < k) = false := by
        simp only [decide_eq_false_iff_not]; omega
      have d2 : decide (i < k + 1) = false := by
        simp only [decide_eq_false_iff_not]; omega
      have d3 : decide (i = k) = false := by
        simp only [decide_eq_false_iff_not]; omega
      rw [d1, d2, d3]
      simp

theorem pack_byte_lt (b : Nat → Nat) : pack_byte b < 256 := by
  have h : pack_byte b = pack_step b (List.foldl (pack_step b) 0 (List.range 7)) 7 :=
    pack_range_last b 7
  rw [h]
  unfold pack_step
  exact Nat.mod_lt _ (by norm_num)

theorem pack_byte_testBit (b : Nat → Nat) (hb : ∀ j, b j ≤ 1)
    (i : Nat) (hi : i < 8) : (pack_byte b).testBit i = decide (b i = 1) := by
  have h := (pack_aux b hb 8 le_rfl).2 i
  rw [pack_byte, h]
  have d1 : decide (i < 8) = true := by simp only [decide_eq_true_eq]; omega
  rw [d1, Bool.true_and]

theorem byteAt_zero_of_lt {x k i : Nat} (hx : x < 2 ^ (8 * k)) (hk : k ≤ i) :
    byteAt x i = 0 := by
  unfold byteAt
  rw [Nat.div_eq_of_lt
    (lt_of_lt_of_le hx (Nat.pow_le_pow_right (by norm_num) (by omega)))]

theorem strncmp_zero_iff :
    ∀ (p : List Nat), (∀ b ∈ p, b ≠ 0) →
      ∀ s, (strncmp s p p.length = 0 ↔ p <+: s) := by
  intro p
  induction p with
  | nil =>
    intro _ s
    have h0 : strncmp s [] 0 = 0 := by simp [strncmp]
    show strncmp s [] 0 = 0 ↔ _
    rw [h0]
    exact iff_of_true rfl ( List.nil_prefix)
  | cons c p ih =>
    intro hp s
    have hc : c ≠ 0 := hp c (by simp)
    have hp' : ∀ b ∈ p, b ≠ 0 := fun b hb => hp b (by simp [hb])
    cases s with
    | nil =>
      have hred : strncmp [] (c :: p) (c :: p).length = 0 - (c : Int) := by
        simp [strncmp]
      rw [hred]
      constructor
      · intro h
        omega
      · rintro ⟨t, ht⟩
        simp at ht
    | cons a s' =>
      have hred : strncmp (a :: s') (c :: p) (c :: p).length =
          if a = c then strncmp s' p p.length else (a : Int) - (c : Int) := by
        simp [strncmp]
      rw [hred]
      by_cases hac : a = c
      · subst hac
        rw [if_pos rfl]
        constructor
        · intro h
          exact List.cons_prefix_cons.mpr ⟨rfl, (ih hp' s').mp h⟩
        · intro h
          exact (ih hp' s').mpr (List.cons_prefix_cons.mp h).2
      · rw [if_neg hac]
        constructor
        · intro h
          exact absurd rfl (by omega : a ≠ a)
        · intro h
          exact absurd (List.cons_prefix_cons.mp h).1.symm hac

theorem tcp_rtu_not_both {url : List Nat} (h1 : TCP_PREFIX_bytes <+: url)
    (h2 : RTU_PREFIX_bytes <+: url) : False := by
  obtain ⟨t1, ht1⟩ := h1
  obtain ⟨t2, ht2⟩ := h2
  rw [← ht2] at ht1
  simp [TCP_PREFIX_bytes, RTU_PREFIX_bytes] at ht1

/-- Claim C2: `parse_url` returns the TCP variant (`0`) exactly when the
URL begins with the 6-byte `"tcp://"`, the RTU variant (`1`) exactly when
it begins with the 9-byte `"serial://"`, and `-EINVAL` for every other
string (including the strict `"tcp"` without `"://"`); the classification
is a pure function of the string. -/
theorem parse_url_classifies (url : List Nat) :
    (parse_url url = 0 ↔ TCP_PREFIX_bytes <+: url) ∧
    (parse_url url = 1 ↔ RTU_PREFIX_bytes <+: url) ∧
    (parse_url url = -(EINVAL : Int) ↔
      ¬ TCP_PREFIX_bytes <+: url ∧ ¬ RTU_PREFIX_bytes <+: url) ∧
    parse_url [116, 99, 112] = -(EINVAL : Int) := by
  have htcp := strncmp_zero_iff TCP_PREFIX_bytes (by decide) url
  have hrtu := strncmp_zero_iff RTU_PREFIX_bytes (by decide) url
  unfold parse_url
  rw [show TCP_PREFIX_SIZE = TCP_PREFIX_bytes.length from rfl,
      show RTU_PREFIX_SIZE = RTU_PREFIX_bytes.length from rfl]
  by_cases h1 : strncmp url TCP_PREFIX_bytes TCP_PREFIX_bytes.length = 0
  · rw [if_pos h1]
    have hT : TCP_PREFIX_bytes <+: url := htcp.mp h1
    refine ⟨iff_of_true rfl hT, ?_, ?_, by decide⟩
    · constructor
      · intro h
        exact absurd h (by norm_num)
      · intro hR
        exact (tcp_rtu_not_both hT hR).elim
    · constructor
      · intro h
        exact absurd h (by norm_num [EINVAL])
      · intro h
        exact absurd hT h.1
  · rw [if_neg h1]
    have hnT : ¬ TCP_PREFIX_bytes <+: url := fun h => h1 (htcp.mpr h)
    by_cases h2 : strncmp url RTU_PREFIX_bytes RTU_PREFIX_bytes.length = 0
    · rw [if_pos h2]
      have hR := hrtu.mp h2
      refine ⟨⟨fun h => absurd h (by norm_num), fun hT => absurd hT hnT⟩,
              iff_of_true rfl hR, ?_, by decide⟩
      constructor
      · intro h
        exact absurd h (by norm_num [EINVAL])
      · intro h
        exact absurd hR h.2
    · rw [if_neg h2]
      have hnR : ¬ RTU_PREFIX_bytes <+: url := fun h => h2 (hrtu.mpr h)
      exact ⟨⟨fun h => absurd h (by norm_num [EINVAL]), fun hT => absurd hT hnT⟩,
             ⟨fun h => absurd h (by norm_num [EINVAL]), fun hR => absurd hR hnR⟩,
             iff_of_true rfl ⟨hnT, hnR⟩, by decide⟩

/-- Claim C1: with the byte width selector (`bit_offset = 8`) and a
successful byte-read primitive that deposits eight boolean coil readings,
`modbus_read_data` stores in `*out` a byte whose bit `i` is set exactly
when coil reading `i` is true. -/
theorem read_byte_packs_coils (d : DriverReads) (errno : Nat) (reg_addr : Int)
    (out : Nat) (coil : Nat → Bool)
    (hrc : 0 ≤ d.rcByte)
    (hb : ∀ j, d.bytes j = if coil j then 1 else 0) :
    ∀ i, i < 8 →
      ((modbus_read_data d errno reg_addr 8 out).2.1).testBit i = coil i := by
  intro i hi
  have h8 : read_switch d 8 = (d.rcByte, pack_byte d.bytes, [ReadPrim.rByte]) := by
    unfold read_switch
    norm_num
  have hval : (modbus_read_data d errno reg_addr 8 out).2.1 = pack_byte d.bytes := by
    simp only [modbus_read_data, h8]
    rw [if_neg (by omega : ¬ d.rcByte < 0)]
  rw [hval]
  have hble : ∀ j, d.bytes j ≤ 1 := by
    intro j
    rw [hb j]
    split <;> norm_num
  rw [pack_byte_testBit d.bytes hble i hi, hb i]
  cases h : coil i <;> simp

/-- Witness for C1: coil readings `[1,0,1,0,0,0,0,0]` synthesize the byte
`5`, with each result bit matching the corresponding coil. -/
theorem read_byte_packs_coils_witness :
    (0 : Int) ≤ d_ok.rcByte ∧
    (∀ i, i < 8 → ((modbus_read_data d_ok 0 0 8 0).2.1).testBit i
      = (decide (i = 0 ∨ i = 2))) ∧
    (modbus_read_data d_ok 0 0 8 0).2.1 = 5 := by
  refine ⟨by norm_num [d_ok], ?_, by decide⟩
  exact read_byte_packs_coils d_ok 0 0 0 (fun j => decide (j = 0 ∨ j = 2))
    (by norm_num [d_ok])
    (by
      intro j
      by_cases h : j = 0 ∨ j = 2 <;> simp [d_ok, h])

/-- Claim C3 (evaluating the code on the failing inputs): for a width
selector outside `{1, 8, 16, 32, 64}` the switch sets `rc = -EINVAL` and
invokes no transport primitive, but the shared error path then overwrites
`rc` with `-errno`, so the function returns the negation of the stale
`errno` value — not `-EINVAL`. -/
theorem read_unknown_selector_returns_stale_errno (d : DriverReads)
    (errno : Nat) (reg_addr bit_offset : Int) (out : Nat)
    (hoff : ¬ (bit_offset = 1 ∨ bit_offset = 8 ∨ bit_offset = 16 ∨
      bit_offset = 32 ∨ bit_offset = 64)) :
    modbus_read_data d errno reg_addr bit_offset out = (-(errno : Int), out, []) := by
  push_neg at hoff
  obtain ⟨h1, h8, h16, h32, h64⟩ := hoff
  simp only [modbus_read_data, read_switch, if_neg h1, if_neg h8, if_neg h16,
    if_neg h32, if_neg h64]
  rw [if_pos (by norm_num [EINVAL])]

/-- Witness for C3: with `bit_offset = 7` and `errno = 0` the call returns
`0` — a success code — leaving `*out` untouched and invoking no
primitive, where the claim (and the spec) demand `-EINVAL`. -/
theorem read_unknown_selector_witness :
    (¬ ((7 : Int) = 1 ∨ (7 : Int) = 8 ∨ (7 : Int) = 16 ∨ (7 : Int) = 32 ∨
      (7 : Int) = 64)) ∧
    modbus_read_data d_err 0 0 7 99 = (0, 99, []) := by
  refine ⟨by norm_num, ?_⟩
  have h := read_unknown_selector_returns_stale_errno d_err 0 0 7 99 (by norm_num)
  rw [h]
  norm_num

/-- Claim C9: whenever `modbus_read_data` returns a negative value, the
caller's `*out` is left unchanged (the `memcpy` runs only on the success
branch). -/
theorem read_error_leaves_out_unchanged (d : DriverReads) (errno : Nat)
    (reg_addr bit_offset : Int) (out : Nat)
    (h : (modbus_read_data d errno reg_addr bit_offset out).1 < 0) :
    (modbus_read_data d errno reg_addr bit_offset out).2.1 = out := by
  simp only [modbus_read_data] at h ⊢
  by_cases hrc : (read_switch d bit_offset).1 < 0
  · rw [if_pos hrc]
  · rw [if_neg hrc] at h ⊢
    exact absurd h hrc

/-- Witness for C9: a failing 16-bit read with `errno = 5` returns `-5`
and leaves `*out = 77` unchanged. -/
theorem read_error_leaves_out_unchanged_witness :
    (modbus_read_data d_err 5 0 16 77).1 < 0 ∧
    (modbus_read_data d_err 5 0 16 77).2.1 = 77 := by
  refine ⟨by decide, ?_⟩
  exact read_error_leaves_out_unchanged d_err 5 0 16 77 (by decide)

/-- Claim C10: when the selected driver primitive succeeds, the whole
8-byte `*out` is overwritten with the zero-initialised temporary union,
so every byte beyond the width of the selected member is zero. -/
theorem read_success_zero_extends (d : DriverReads) (errno : Nat)
    (reg_addr bit_offset : Int) (out : Nat)
    (hoff : bit_offset = 1 ∨ bit_offset = 8 ∨ bit_offset = 16 ∨
      bit_offset = 32 ∨ bit_offset = 64)
    (hrc : 0 ≤ (read_switch d bit_offset).1) :
    (modbus_read_data d errno reg_addr bit_offset out).2.1 =
      (read_switch d bit_offset).2.1 ∧
    ∀ i, width_bytes bit_offset ≤ i →
      byteAt (modbus_read_data d errno reg_addr bit_offset out).2.1 i = 0 := by
  have hcopy : (modbus_read_data d errno reg_addr bit_offset out).2.1 =
      (read_switch d bit_offset).2.1 := by
    simp only [modbus_read_data]
    rw [if_neg (by omega)]
  refine ⟨hcopy, fun i hi => ?_⟩
  rw [hcopy]
  have hlt : (read_switch d bit_offset).2.1 < 2 ^ (8 * width_bytes bit_offset) := by
    rcases hoff with rfl | rfl | rfl | rfl | rfl
    · simp only [read_switch, width_bytes]
      norm_num
      split <;> norm_num
    · simp only [read_switch, width_bytes]
      norm_num
      exact pack_byte_lt d.bytes
    · simp only [read_switch, width_bytes]
      norm_num
      exact Nat.mod_lt _ (by norm_num)
    · simp only [read_switch, width_bytes]
      norm_num
      exact Nat.mod_lt _ (by norm_num)
    · simp only [read_switch, width_bytes]
      norm_num
      exact Nat.mod_lt _ (by norm_num)
  exact byteAt_zero_of_lt hlt hi

/-- Witness for C10: a successful 16-bit read of `50000` into an
8-byte `*out` previously holding `123` zeroes byte 2 (and beyond). -/
theorem read_success_zero_extends_witness :
    ((16 : Int) = 1 ∨ (16 : Int) = 8 ∨ (16 : Int) = 16 ∨ (16 : Int) = 32 ∨
      (16 : Int) = 64) ∧
    (0 : Int) ≤ (read_switch d_ok 16).1 ∧
    byteAt ((modbus_read_data d_ok 0 0 16 123).2.1) 2 = 0 := by
  refine ⟨by norm_num, by decide, ?_⟩
  exact (read_success_zero_extends d_ok 0 0 16 123 (by norm_num) (by decide)).2
    2 (by decide)

theorem l_timeout_modify_keeps (s : MState) (tt : Option Nat) (secs : Nat) :
    (l_timeout_modify s tt secs).modbus_io = s.modbus_io ∧
    (l_timeout_modify s tt secs).liveIOs = s.liveIOs ∧
    (l_timeout_modify s tt secs).connect_to = s.connect_to ∧
    (l_timeout_modify s tt secs).events = s.events ∧
    (l_timeout_modify s tt secs).modbus_ctx = s.modbus_ctx ∧
    (l_timeout_modify s tt secs).liveCtxs = s.liveCtxs ∧
    (l_timeout_modify s tt secs).liveTimers = s.liveTimers := by
  cases tt with
  | none => simp [l_timeout_modify]
  | some t =>
    simp only [l_timeout_modify]
    split <;> simp

theorem l_timeout_remove_keeps (s : MState) (tt : Option Nat) :
    (l_timeout_remove s tt).modbus_io = s.modbus_io ∧
    (l_timeout_remove s tt).liveIOs = s.liveIOs ∧
    (l_timeout_remove s tt).connect_to = s.connect_to ∧
    (l_timeout_remove s tt).events = s.events ∧
    (l_timeout_remove s tt).modbus_ctx = s.modbus_ctx ∧
    (l_timeout_remove s tt).liveCtxs = s.liveCtxs := by
  cases tt with
  | none => simp [l_timeout_remove]
  | some t =>
    simp only [l_timeout_remove]
    split <;> simp

theorem l_io_destroy_keeps (s : MState) (io : Option Nat) :
    (l_io_destroy s io).modbus_io = s.modbus_io ∧
    (l_io_destroy s io).connect_to = s.connect_to ∧
    (l_io_destroy s io).events = s.events ∧
    (l_io_destroy s io).modbus_ctx = s.modbus_ctx ∧
    (l_io_destroy s io).liveCtxs = s.liveCtxs ∧
    (l_io_destroy s io).armedTimers = s.armedTimers ∧
    (l_io_destroy s io).liveTimers = s.liveTimers := by
  cases io with
  | none => simp [l_io_destroy]
  | some i =>
    simp only [l_io_destroy]
    split <;> simp

theorem driver_destroy_keeps (s : MState) (c : Option Nat) :
    (driver_destroy s c).modbus_io = s.modbus_io ∧
    (driver_destroy s c).liveIOs = s.liveIOs ∧
    (driver_destroy s c).connect_to = s.connect_to ∧
    (driver_destroy s c).events = s.events ∧
    (driver_destroy s c).armedTimers = s.armedTimers ∧
    (driver_destroy s c).liveTimers = s.liveTimers := by
  cases c with
  | none => simp [driver_destroy]
  | some x =>
    simp only [driver_destroy]
    split <;> simp

theorem modbus_start_keeps_io (s : MState) (url : List Nat) (slave : Int)
    (ccb dcb ud : Option Nat) (cOk sOk : Bool) (errno : Nat) :
    ((modbus_start s url slave ccb dcb ud cOk sOk errno).1).modbus_io = s.modbus_io := by
  by_cases h : parse_url url = 0 ∨ parse_url url = 1
  · cases cOk <;> cases sOk <;>
      simp [modbus_start, driver_create, l_timeout_create_ms, h]
  · simp [modbus_start, h]

theorem fire_timer_false_keeps (s : MState) (t : Nat) :
    (fire_timer s t false).modbus_io = s.modbus_io ∧
    (fire_timer s t false).liveIOs = s.liveIOs := by
  have h := l_timeout_modify_keeps
    { s with armedTimers := s.armedTimers.filter (fun x => x != t) }
    (some t) RECONNECT_TIMEOUT
  simp only [fire_timer, attempt_connect, not_false_eq_true, if_pos]
  exact ⟨h.1, h.2.1⟩

theorem fire_timer_true_fields (s : MState) (t : Nat) :
    (fire_timer s t true).connect_to = s.connect_to ∧
    (fire_timer s t true).armedTimers = s.armedTimers.filter (fun x => x != t) := by
  cases hcb : s.conn_cb <;>
    simp [fire_timer, attempt_connect, l_io_new, hcb]

theorem fire_disconnect_io_none (s : MState) :
    (fire_disconnect s).modbus_io = none := by
  simp only [fire_disconnect, on_disconnected]
  rw [(l_timeout_modify_keeps _ _ _).1]

theorem watchLive_stop (s : MState) : ¬ watchLive (modbus_stop s) := by
  rintro ⟨i, hi, hmem⟩
  simp only [modbus_stop] at hi hmem
  rw [(driver_destroy_keeps _ _).1, (l_io_destroy_keeps _ _).1,
    (l_timeout_remove_keeps _ _).1] at hi
  rw [(driver_destroy_keeps _ _).2.1] at hmem
  rw [hi] at hmem
  by_cases hm : i ∈ (l_timeout_remove s s.connect_to).liveIOs
  · simp [l_io_destroy, hm, List.mem_filter] at hmem
  · simp [l_io_destroy, hm] at hmem

/-- Claim C4 (amended): `modbus_stop` never invokes either callback, and
calling it before any `modbus_start` is a no-op; the source, however,
does not clear the stored handles, so it is not idempotent after a start
(see the double-release counterexample). -/
theorem stop_no_callbacks_initial_noop :
    (∀ s, (modbus_stop s).events = s.events) ∧ modbus_stop initState = initState := by
  constructor
  · intro s
    simp only [modbus_stop]
    rw [(driver_destroy_keeps _ _).2.2.2.1, (l_io_destroy_keeps _ _).2.2.1,
      (l_timeout_remove_keeps _ _).2.2.2.1]
  · rfl

/-- Counterexample to C4 as stated: after a successful `modbus_start`, a
first `modbus_stop` releases the timer and the context but leaves the
dangling pointers in place, so a second `modbus_stop` releases the
already-released handles (the model's double-free fault), instead of
being a no-op; no callback is ever invoked. -/
theorem stop_double_release_faults :
    (modbus_stop s_started).faulted = false ∧
    (modbus_stop (modbus_stop s_started)).faulted = true ∧
    (modbus_stop (modbus_stop s_started)).events = [] := by
  refine ⟨by decide, by decide, by decide⟩

/-- Claim C5 (evaluating the code): `modbus_start` is called with
`user_data = 42`, yet the connect timer and the disconnect handler are
registered with `NULL` user-data and the caller's value is never stored,
so `on_connected` and `on_disconnected` both receive `NULL` (`none`),
not the caller's value. -/
theorem callbacks_receive_null_user_data :
    s_started =
      (modbus_start initState tcp_url 1 (some 7) (some 8) (some 42) true true 0).1 ∧
    s_conn.events = [Event.connCb 7 none] ∧
    (fire_disconnect s_conn).events =
      [Event.connCb 7 none, Event.disconnCb 8 none] := by
  refine ⟨rfl, by decide, by decide⟩

/-- Claim C6 (amended): if `modbus_set_slave` fails, `modbus_start`
returns `-errno` immediately, without storing callbacks, arming a timer
or emitting events — but the driver handle it just created remains
allocated and stored in the global `modbus_ctx`, reachable from the
module state. -/
theorem start_slave_failure_keeps_context (s : MState) (url : List Nat)
    (slave : Int) (ccb dcb ud : Option Nat) (errno : Nat)
    (hurl : parse_url url = 0 ∨ parse_url url = 1) :
    (modbus_start s url slave ccb dcb ud true false errno).2 = -(errno : Int) ∧
    (modbus_start s url slave ccb dcb ud true false errno).1.modbus_ctx =
      some s.nextId ∧
    s.nextId ∈ (modbus_start s url slave ccb dcb ud true false errno).1.liveCtxs ∧
    (modbus_start s url slave ccb dcb ud true false errno).1.connect_to =
      s.connect_to ∧
    (modbus_start s url slave ccb dcb ud true false errno).1.conn_cb = s.conn_cb ∧
    (modbus_start s url slave ccb dcb ud true false errno).1.disconn_cb =
      s.disconn_cb ∧
    (modbus_start s url slave ccb dcb ud true false errno).1.events = s.events ∧
    (modbus_start s url slave ccb dcb ud true false errno).1.armedTimers =
      s.armedTimers := by
  simp [modbus_start, driver_create, hurl]

/-- Witness for C6 (amended): concrete slave-bind failure with
`errno = 5` from the initial state. -/
theorem start_slave_failure_keeps_context_witness :
    (parse_url tcp_url = 0 ∨ parse_url tcp_url = 1) ∧
    (modbus_start initState tcp_url 1 (some 7) (some 8) none true false 5).2 = -5 ∧
    (modbus_start initState tcp_url 1 (some 7) (some 8) none true false 5).1.modbus_ctx
      = some initState.nextId ∧
    initState.nextId ∈
      (modbus_start initState tcp_url 1 (some 7) (some 8) none true false 5).1.liveCtxs := by
  have h := start_slave_failure_keeps_context initState tcp_url 1 (some 7) (some 8)
    none 5 (by decide)
  exact ⟨by decide, h.1, h.2.1, h.2.2.1⟩

/-- Counterexample to C6 as stated: when `modbus_set_slave` fails after a
successful `create`, the error is surfaced (`-5`) but a live driver
context remains allocated and reachable from the global `modbus_ctx`,
contradicting "leaves no live context". -/
theorem start_slave_failure_context_remains :
    (modbus_start initState tcp_url 1 (some 7) (some 8) none true false 5).2 = -5 ∧
    (modbus_start initState tcp_url 1 (some 7) (some 8) none true false 5).1.modbus_ctx
      = some 0 ∧
    0 ∈ (modbus_start initState tcp_url 1 (some 7) (some 8) none true false 5).1.liveCtxs := by
  refine ⟨by decide, by decide, by decide⟩

/-- Claim C7 (amended): in every reachable state (one `modbus_start`, per
the spec's contract that a second `start` while a context is live is
invalid), a live I/O watch and an *armed* reconnect timer never coexist.
The timer *handle* itself stays allocated while connected, so the claim's
"never both handles live" is false as stated (see the counterexample). -/
theorem reachable_watch_excludes_armed_timer (s : MState) (h : Reach s)
    (hw : watchLive s) : ¬ timerArmedLive s := by
  revert hw
  induction h with
  | init =>
    rintro ⟨i, hi, _⟩
    simp [initState] at hi
  | start url slave ccb dcb ud cOk sOk errno =>
    rintro ⟨i, hi, _⟩
    rw [modbus_start_keeps_io] at hi
    simp [initState] at hi
  | timer s t cOk hr hct harm ih =>
    intro hw
    cases cOk with
    | false =>
      rcases hw with ⟨i, hi, hmem⟩
      rw [(fire_timer_false_keeps s t).1] at hi
      rw [(fire_timer_false_keeps s t).2] at hmem
      exact absurd ⟨t, hct, harm⟩ (ih ⟨i, hi, hmem⟩)
    | true =>
      rintro ⟨t', hct', harm'⟩
      rw [(fire_timer_true_fields s t).1, hct] at hct'
      obtain rfl : t = t' := Option.some.inj hct'
      rw [(fire_timer_true_fields s t).2] at harm'
      simp [List.mem_filter] at harm'
  | disc s i hr hio hmem ih =>
    rintro ⟨j, hj, _⟩
    rw [fire_disconnect_io_none] at hj
    exact Option.noConfusion hj
  | stop s hr ih =>
    intro hw
    exact absurd hw (watchLive_stop s)

/-- Witness for C7 (amended): the connected state `s_conn` is reachable,
its watch is live, and its timer is not armed. -/
theorem reachable_watch_excludes_armed_timer_witness :
    Reach s_conn ∧ watchLive s_conn ∧ ¬ timerArmedLive s_conn := by
  have hr : Reach s_conn :=
    Reach.timer s_started 1 true
      (Reach.start tcp_url 1 (some 7) (some 8) (some 42) true true 0)
      (by decide) (by decide)
  have hw : watchLive s_conn := ⟨2, by decide, by decide⟩
  exact ⟨hr, hw, reachable_watch_excludes_armed_timer s_conn hr hw⟩

/-- Counterexample to C7 as stated: in the reachable connected state both
the reconnect-timer handle (`connect_to = 1`, still allocated, merely
unarmed) and the I/O-watch handle (`modbus_io = 2`) are live at the same
time. -/
theorem timer_and_watch_handles_both_live :
    Reach s_conn ∧
    s_conn.connect_to = some 1 ∧ 1 ∈ s_conn.liveTimers ∧
    s_conn.modbus_io = some 2 ∧ 2 ∈ s_conn.liveIOs := by
  refine ⟨Reach.timer s_started 1 true
    (Reach.start tcp_url 1 (some 7) (some 8) (some 42) true true 0)
    (by decide) (by decide), by decide, by decide, by decide, by decide⟩

/-- Claim C8: when `modbus_connect` fails inside `attempt_connect`, the
timer is re-armed for exactly `RECONNECT_TIMEOUT` (5) seconds (5000 ms in
the model's interval table), no callback is invoked, and every other
component of the state is unchanged. -/
theorem attempt_connect_failure_rearms_only (s : MState) (t : Nat)
    (hct : s.connect_to = some t) (harm : t ∈ s.armedTimers)
    (hlive : t ∈ s.liveTimers) :
    (fire_timer s t false).events = s.events ∧
    (fire_timer s t false).connect_to = s.connect_to ∧
    (fire_timer s t false).modbus_io = s.modbus_io ∧
    (fire_timer s t false).modbus_ctx = s.modbus_ctx ∧
    (fire_timer s t false).conn_cb = s.conn_cb ∧
    (fire_timer s t false).disconn_cb = s.disconn_cb ∧
    (fire_timer s t false).connection_interface = s.connection_interface ∧
    (fire_timer s t false).liveTimers = s.liveTimers ∧
    (fire_timer s t false).liveIOs = s.liveIOs ∧
    (fire_timer s t false).liveCtxs = s.liveCtxs ∧
    (fire_timer s t false).faulted = s.faulted ∧
    t ∈ (fire_timer s t false).armedTimers ∧
    List.lookup t (fire_timer s t false).intervals =
      some (RECONNECT_TIMEOUT * 1000) := by
  simp [fire_timer, attempt_connect, l_timeout_modify, hlive]

/-- Witness for C8: a failed first connect attempt from `s_started`. -/
theorem attempt_connect_failure_rearms_only_witness :
    s_started.connect_to = some 1 ∧ 1 ∈ s_started.armedTimers ∧
    1 ∈ s_started.liveTimers ∧
    (fire_timer s_started 1 false).events = s_started.events ∧
    1 ∈ (fire_timer s_started 1 false).armedTimers ∧
    List.lookup 1 (fire_timer s_started 1 false).intervals =
      some (RECONNECT_TIMEOUT * 1000) := by
  have h := attempt_connect_failure_rearms_only s_started 1
    (by decide) (by decide) (by decide)
  obtain ⟨h1, h2, h3, h4, h5, h6, h7, h8, h9, h10, h11, h12, h13⟩ := h
  exact ⟨by decide, by decide, by decide, h1, h12, h13⟩

end Modbus
